import Mathlib

/-!
Verification development for the ai-image-edit backend.

The file shallowly embeds the three policy components of the repository —
the post source resolver (`reddit_service.py`), the storage cleanup policy
(`cleanup_service.py`) and the edit orchestrator (`ai_service.py`) — and
proves the documented contracts about them.  External effects (the Reddit
API, the filesystem, the HTTP client, the Gemini model) are modelled as
explicit inputs describing the outcome the environment produces, and the
functions are translated statement by statement from the Python source.
-/

/-- Models the Python `str.startswith`: character-wise prefix test. -/
def pyStartsWith (s pre : String) : Bool :=
  pre.data.isPrefixOf s.data

/-- Models the Python `str.endswith`: character-wise suffix test. -/
def pyEndsWith (s post : String) : Bool :=
  post.data.isSuffixOf s.data

/-- Models the Python `url.replace("&amp;", "&")`: a left-to-right,
non-overlapping scan that rewrites each occurrence of `&amp;` to `&`. -/
def replaceAmpChars : List Char → List Char
  | '&' :: 'a' :: 'm' :: 'p' :: ';' :: rest => '&' :: replaceAmpChars rest
  | c :: rest => c :: replaceAmpChars rest
  | [] => []

/-- String wrapper of `replaceAmpChars`. -/
def replaceAmp (s : String) : String :=
  String.mk (replaceAmpChars s.data)

/-- A post record, as built by `get_photoshop_request_posts` and by
`get_mock_posts` in `reddit_service.py` (the JSON-dict with keys id, title,
description, imageUrl, postUrl, created_utc, created_date, author, score,
num_comments, subreddit). -/
structure Post where
  id : String
  title : String
  description : String
  imageUrl : String
  postUrl : String
  created_utc : Int
  created_date : String
  author : String
  score : Int
  num_comments : Int
  subreddit : String
deriving Repr, DecidableEq

/-- State of the cache file `temp/reddit_posts.json`: missing, present but
not valid JSON (a read raises `JSONDecodeError`/`IOError`), or readable with
a parsed list of posts. -/
inductive CacheState where
  | absent
  | unreadable
  | readable (posts : List Post)
deriving Repr, DecidableEq

/-- Embeds `load_posts_from_cache`: returns the parsed list when the file
exists and parses, and `[]` when the file is missing or unreadable. -/
def load_posts_from_cache : CacheState → List Post
  | CacheState.absent => []
  | CacheState.unreadable => []
  | CacheState.readable posts => posts

/-- Embeds `save_posts_to_cache`: the cache file is overwritten wholesale
with the serialized posts, so the resulting cache state is `readable posts`
(JSON serialization of the post dicts is assumed faithful). -/
def save_posts_to_cache (posts : List Post) : CacheState :=
  CacheState.readable posts

/-- Embeds `get_mock_posts`.  The Python code calls `time.time()` and
`datetime.now().isoformat()` when building the mock entries; those two
environment reads are the parameters `now` and `nowIso`. -/
def get_mock_posts (now : Int) (nowIso : String) : List Post :=
  [ { id := "mock_post_1",
      title := "[PAID] Can someone remove the person in the background?",
      description := "I love this photo of my dog, but the person walking behind ruins it. Can anyone help? Will tip!",
      imageUrl := "https://placehold.co/600x400/000000/FFFFFF?text=Sample+Image+1",
      postUrl := "#",
      created_utc := now,
      created_date := nowIso,
      author := "mock_user_1",
      score := 152,
      num_comments := 25,
      subreddit := "PhotoshopRequest" },
    { id := "mock_post_2",
      title := "Please restore this old photo of my grandparents",
      description := "This is the only photo I have of them together. It\x27s very faded and has some scratches. Thank you in advance!",
      imageUrl := "https://placehold.co/600x400/333333/FFFFFF?text=Sample+Image+2",
      postUrl := "#",
      created_utc := now,
      created_date := nowIso,
      author := "mock_user_2",
      score := 89,
      num_comments := 12,
      subreddit := "PhotoshopRequest" },
    { id := "mock_post_3",
      title := "Can you change the color of my car to blue?",
      description := "Thinking about getting my car repainted. Can someone show me what it would look like in a dark metallic blue?",
      imageUrl := "https://placehold.co/600x400/666666/FFFFFF?text=Sample+Image+3",
      postUrl := "#",
      created_utc := now,
      created_date := nowIso,
      author := "mock_user_3",
      score := 45,
      num_comments := 8,
      subreddit := "PhotoshopRequest" } ]

/-- The five environment variables read at the top of `reddit_service.py`
(`os.getenv` yields `None` when unset, a string otherwise). -/
structure RedditConfig where
  client_id : Option String
  client_secret : Option String
  user_agent : Option String
  username : Option String
  password : Option String
deriving Repr, DecidableEq

/-- Python truthiness of an `os.getenv` result: `None` and the empty string
are falsy. -/
def envTruthy : Option String → Bool
  | none => false
  | some s => !(s == "")

/-- The `all([REDDIT_CLIENT_ID, REDDIT_CLIENT_SECRET, REDDIT_USERNAME,
REDDIT_PASSWORD])` check in `get_reddit_instance` (the user agent is not
checked). -/
def credentialsConfigured (c : RedditConfig) : Bool :=
  envTruthy c.client_id && envTruthy c.client_secret &&
    envTruthy c.username && envTruthy c.password

/-- Embeds `get_reddit_instance`: `None` when the four checked credentials
are not all truthy, otherwise a PRAW instance (opaque to this layer, so
modelled as `Unit`). -/
def get_reddit_instance (c : RedditConfig) : Option Unit :=
  if credentialsConfigured c then some () else none

/-- A submission as yielded by `subreddit.new(limit=...)`.  `url` is `none`
when the attribute is missing; `preview` is `none` when the attribute is
missing, `some none` when extracting
`preview[images][0][source][url]` raises `KeyError`/`IndexError`, and
`some (some raw)` when the extraction yields the raw URL string. -/
structure Submission where
  id : String
  title : String
  selftext : String
  created_utc : Int
  url : Option String
  preview : Option (Option String)
  permalink : String
  author : Option String
  score : Int
  num_comments : Int
  subreddit_display_name : String
deriving Repr, DecidableEq

/-- The direct-URL branch of the image check: the submission has a `url`
attribute ending in `.jpg`, `.jpeg` or `.png`. -/
def directImageUrl (s : Submission) : Option String :=
  match s.url with
  | some u =>
      if pyEndsWith u ".jpg" || pyEndsWith u ".jpeg" || pyEndsWith u ".png" then some u
      else none
  | none => none

/-- The preview branch of the image check: the nested preview URL with
`&amp;` replaced by `&`. -/
def previewImageUrl (s : Submission) : Option String :=
  match s.preview with
  | some (some raw) => some (replaceAmp raw)
  | some none => none
  | none => none

/-- The `image_url` variable computed for a submission in the fetch loop of
`get_photoshop_request_posts`, before the `if image_url:` truthiness gate:
the direct URL if it has an image extension, else the preview URL, else
`None` (the emptiness part of the gate lives in `qualifyingPost`). -/
def submissionImageUrl (s : Submission) : Option String :=
  match directImageUrl s with
  | some u => some u
  | none => previewImageUrl s

/-- The `post_data` dict built for a qualifying submission.  `fmt` stands
for `datetime.fromtimestamp(...).isoformat()`. -/
def buildPost (fmt : Int → String) (s : Submission) (img : String) : Post :=
  { id := s.id,
    title := s.title,
    description := s.selftext,
    imageUrl := img,
    postUrl := "https://www.reddit.com" ++ s.permalink,
    created_utc := s.created_utc,
    created_date := fmt s.created_utc,
    author := match s.author with
      | some name => name
      | none => "[deleted]",
    score := s.score,
    num_comments := s.num_comments,
    subreddit := s.subreddit_display_name }

/-- One iteration of the fetch loop: skip the submission when it is older
than `one_day_ago = now - 24*60*60` (strict `<`, i.e. `continue`), then keep
it only when `if image_url:` holds — Python truthiness, so a resolved but
empty image URL (an empty preview-derived string) is dropped as well as a
missing one. -/
def qualifyingPost (now : Int) (fmt : Int → String) (s : Submission) : Option Post :=
  if s.created_utc < now - 24 * 60 * 60 then none
  else
    match submissionImageUrl s with
    | some img => if img == "" then none else some (buildPost fmt s img)
    | none => none

/-- The `image_posts` list accumulated over the submissions, in source
order. -/
def collectImagePosts (now : Int) (fmt : Int → String) (subs : List Submission) : List Post :=
  subs.filterMap (qualifyingPost now fmt)

/-- Outcome of iterating `subreddit.new(limit=limit)`: either the live
source yields a list of submissions, or some exception is raised during the
fetch. -/
inductive FetchOutcome where
  | error (msg : String)
  | ok (subs : List Submission)
deriving Repr, DecidableEq

/-- The body of the `try` block of `get_photoshop_request_posts` up to the
construction of `image_posts`.  When `get_reddit_instance` returned `None`,
`reddit.subreddit("PhotoshopRequest")` raises an `AttributeError`; any
exception from the live fetch is the `error` case. -/
def fetchFreshPosts (reddit : Option Unit) (fetch : FetchOutcome) (now : Int)
    (fmt : Int → String) : Except String (List Post) :=
  match reddit with
  | none => Except.error "AttributeError: NoneType object has no attribute subreddit"
  | some _ =>
      match fetch with
      | FetchOutcome.error m => Except.error m
      | FetchOutcome.ok subs => Except.ok (collectImagePosts now fmt subs)

/-- The `cached_posts if cached_posts else get_mock_posts()` fallback used
in all three degradation sites of `get_photoshop_request_posts`. -/
def cacheOrMock (cb : CacheState) (now : Int) (nowIso : String) : List Post :=
  let cached_posts := load_posts_from_cache cb
  if cached_posts.isEmpty then get_mock_posts now nowIso else cached_posts

/-- Result of one resolver invocation: the returned list and the cache file
state after the call. -/
structure ResolveResult where
  posts : List Post
  cacheAfter : CacheState
deriving Repr, DecidableEq

/-- Embeds `get_photoshop_request_posts(limit, cache)`.  The environment is
passed explicitly: the credential configuration, the live-fetch outcome, the
prior cache state, the clock (`now`, `nowIso`) and the timestamp formatter
`fmt`.  The `cache` flag is the `preferCache` mode of the spec. -/
def get_photoshop_request_posts (cfg : RedditConfig) (fetch : FetchOutcome)
    (cacheBefore : CacheState) (now : Int) (nowIso : String) (fmt : Int → String)
    (cache : Bool) : ResolveResult :=
  let reddit := get_reddit_instance cfg
  if cache then
    { posts := cacheOrMock cacheBefore now nowIso, cacheAfter := cacheBefore }
  else
    match fetchFreshPosts reddit fetch now fmt with
    | Except.ok image_posts =>
        if image_posts.isEmpty then
          { posts := cacheOrMock cacheBefore now nowIso, cacheAfter := cacheBefore }
        else
          { posts := image_posts, cacheAfter := save_posts_to_cache image_posts }
    | Except.error _ =>
        { posts := cacheOrMock cacheBefore now nowIso, cacheAfter := cacheBefore }

/-- A direct entry of a tracked directory, as seen by `os.listdir` in
`cleanup_service.py`: its name, whether it is a regular file, its
modification time, its byte size, whether it is a symbolic link, and
whether attempting `os.remove` on it raises an `OSError` (e.g. a
permission error). -/
structure DirEntry where
  name : String
  isFile : Bool
  mtime : Int
  size : Nat
  isLink : Bool
  removeFails : Bool
deriving Repr, DecidableEq

/-- Embeds `get_directory_size`: the byte sizes of the regular files that
are not symbolic links, summed and divided by `1024 * 1024` (float division
in Python, exact rational division here), for a directory whose entries
are `entries`. -/
def get_directory_size (entries : List DirEntry) : ℚ :=
  (((entries.filter (fun e => e.isFile && !e.isLink)).map
      (fun e => (e.size : ℚ))).sum) / (1024 * 1024)

/-- The loop body of `clear_old_files` over the `os.listdir` entries: a
regular file with `getmtime < cutoff` is removed and counted, unless the
removal raises `OSError`, which is caught and leaves the file in place;
every other entry is left untouched and the loop continues either way. -/
def clearLoop (cutoff : Int) : List DirEntry → Nat × List DirEntry
  | [] => (0, [])
  | e :: es =>
      let rest := clearLoop cutoff es
      if e.isFile && decide (e.mtime < cutoff) then
        if e.removeFails then (rest.1, e :: rest.2)
        else (rest.1 + 1, rest.2)
      else (rest.1, e :: rest.2)

/-- Embeds `clear_old_files(folder_path, max_age_hours)`.  The directory is
`none` when `os.path.isdir` is false (return 0, nothing touched); otherwise
the entries are processed with `cutoff = now - max_age_hours * 60 * 60`.
Returns the deleted-file count and the directory contents after the
sweep. -/
def clear_old_files (dir : Option (List DirEntry)) (now : Int)
    (max_age_hours : Int) : Nat × Option (List DirEntry) :=
  match dir with
  | none => (0, none)
  | some entries =>
      let r := clearLoop (now - max_age_hours * 60 * 60) entries
      (r.1, some r.2)

/-- The two directories tracked by the cleanup policy,
`static/uploads` and `static/edited_images`; `none` means the directory
does not exist yet. -/
structure TrackedDirs where
  uploads : Option (List DirEntry)
  edited_images : Option (List DirEntry)
deriving Repr, DecidableEq

/-- Embeds `os.makedirs(path, exist_ok=True)`: an absent directory becomes
an empty one, an existing directory is unchanged. -/
def ensureDir : Option (List DirEntry) → List DirEntry
  | none => []
  | some es => es

/-- Observable outcome of `run_cleanup_if_needed`: the directory state
after the call and the two per-directory deletion counts logged by the
function (`none` when no cleanup sweep ran). -/
structure CleanupResult where
  dirs : TrackedDirs
  uploads_cleared : Option Nat
  edited_cleared : Option Nat
deriving Repr, DecidableEq

/-- Embeds `run_cleanup_if_needed`.  `envMaxStorage` is the parsed
`MAX_STORAGE_MB` environment variable (`none` when unset, defaulting to
500); `cleanup_age_hours` is hardcoded to 24.  Both directories are first
created if absent, the combined size in MB is compared against the ceiling,
and only when it exceeds the ceiling is `clear_old_files` run once on each
directory. -/
def run_cleanup_if_needed (fs : TrackedDirs) (envMaxStorage : Option Int)
    (now : Int) : CleanupResult :=
  let max_storage_mb : Int := envMaxStorage.getD 500
  let cleanup_age_hours : Int := 24
  let uploads := ensureDir fs.uploads
  let edited := ensureDir fs.edited_images
  let total_size := get_directory_size uploads + get_directory_size edited
  if total_size > (max_storage_mb : ℚ) then
    let r1 := clear_old_files (some uploads) now cleanup_age_hours
    let r2 := clear_old_files (some edited) now cleanup_age_hours
    { dirs := { uploads := r1.2, edited_images := r2.2 },
      uploads_cleared := some r1.1, edited_cleared := some r2.1 }
  else
    { dirs := { uploads := some uploads, edited_images := some edited },
      uploads_cleared := none, edited_cleared := none }

/-- The standard base64 alphabet used by `base64.b64encode`. -/
def base64Chars : List Char :=
  "ABCDEFGHIJKLMNOPQRSTUVWXYZabcdefghijklmnopqrstuvwxyz0123456789+/".toList

/-- Character of the base64 alphabet at a 6-bit index. -/
def base64CharAt (n : Nat) : Char :=
  base64Chars.getD n 'A'

/-- Base64 encoding of a byte list, three bytes to four characters, with
`=` padding; each byte is a `Nat` below 256. -/
def base64EncodeGroups : List Nat → List Char
  | [] => []
  | [b1] =>
      [base64CharAt (b1 / 4), base64CharAt (b1 % 4 * 16), '=', '=']
  | [b1, b2] =>
      [base64CharAt (b1 / 4), base64CharAt (b1 % 4 * 16 + b2 / 16),
       base64CharAt (b2 % 16 * 4), '=']
  | b1 :: b2 :: b3 :: rest =>
      base64CharAt (b1 / 4) :: base64CharAt (b1 % 4 * 16 + b2 / 16) ::
        base64CharAt (b2 % 16 * 4 + b3 / 64) :: base64CharAt (b3 % 64) ::
        base64EncodeGroups rest

/-- Embeds `base64.b64encode(...).decode("utf-8")`. -/
def base64Encode (bytes : List Nat) : String :=
  String.mk (base64EncodeGroups bytes)

/-- The `inline_data` blob of a Gemini response part: raw bytes and the
model-reported MIME type. -/
structure InlineData where
  data : List Nat
  mime_type : String
deriving Repr, DecidableEq

/-- One part of a Gemini generation response; `inline_data` is `none` when
the part carries no inline image blob (Python falsiness of
`parts[0].inline_data`). -/
structure ResponsePart where
  inline_data : Option InlineData
deriving Repr, DecidableEq

/-- A Gemini generation response: its parts, and the `.text` accessor
(`none` models the case where reading `.text` raises, which the code
catches and ignores). -/
structure GenerationResponse where
  parts : List ResponsePart
  text : Option String
deriving Repr, DecidableEq

/-- The dict returned by `edit_image_with_gemini`: `ok`, the optional
`edited_image_data` data URI, and the optional `error` message. -/
structure EditResult where
  ok : Bool
  edited_image_data : Option String
  error : Option String
deriving Repr, DecidableEq

/-- Outcome of `requests.get(image_source, ...)` followed by
`raise_for_status()`: either the body bytes, or a
`requests.exceptions.RequestException` (which includes the `HTTPError`
raised on a 404 status) with its message. -/
inductive UrlFetchResult where
  | ok (bytes : List Nat)
  | requestError (msg : String)
deriving Repr, DecidableEq

/-- Outcome of `open(image_source, "rb").read()`: the bytes, a
`FileNotFoundError`, or some other `OSError` with message `msg`. -/
inductive FileReadResult where
  | ok (bytes : List Nat)
  | notFound
  | otherError (msg : String)
deriving Repr, DecidableEq

/-- Outcome of `vision_model.generate_content([...])`: a response object or
a raised exception with message `msg`. -/
inductive ModelCallResult where
  | ok (resp : GenerationResponse)
  | raised (msg : String)
deriving Repr, DecidableEq

/-- The environment of one `edit_image_with_gemini` invocation: whether the
vision model is configured (`GEMINI_API_KEY` present), and the outcomes the
world produces for the URL fetch, the file read, `Image.open` (`some msg`
models a raised decoding error) and the model call. -/
structure EditWorld where
  visionConfigured : Bool
  urlFetch : UrlFetchResult
  fileRead : FileReadResult
  imageOpen : Option String
  modelCall : ModelCallResult
deriving Repr, DecidableEq

/-- The exceptions distinguished by the `except` clauses of
`edit_image_with_gemini`: `requests.exceptions.RequestException`,
`FileNotFoundError`, and everything else (caught by `except Exception`). -/
inductive EditExc where
  | requestException (msg : String)
  | fileNotFoundError
  | other (msg : String)
deriving Repr, DecidableEq

/-- The `else` branch on the model response: the fixed error message,
extended with `\nReason from AI: <text>` when reading `.text` succeeds. -/
def refusalResult (resp : GenerationResponse) : EditResult :=
  let error_message :=
    "AI did not return an image. It may have refused the request due to safety policies or a vague prompt."
  match resp.text with
  | some reason =>
      { ok := false, edited_image_data := none,
        error := some (error_message ++ "\nReason from AI: " ++ reason) }
  | none =>
      { ok := false, edited_image_data := none, error := some error_message }

/-- The success/refusal branch on the model response: `ok:true` with the
data URI when `parts` is non-empty and `parts[0].inline_data` is set,
otherwise `ok:false` with the fixed message plus the model text when
available. -/
def responseToResult (resp : GenerationResponse) : EditResult :=
  match resp.parts with
  | p :: _ =>
      match p.inline_data with
      | some d =>
          { ok := true,
            edited_image_data :=
              some ("data:" ++ d.mime_type ++ ";base64," ++ base64Encode d.data),
            error := none }
      | none => refusalResult resp
  | [] => refusalResult resp

/-- The body of the `try` block of `edit_image_with_gemini`: resolve the
bytes from the URL or the local path, raise `ValueError` on empty bytes,
open the image, call the model, and map the response. -/
def editTryBody (w : EditWorld) (image_source : String) : Except EditExc EditResult :=
  let fetched : Except EditExc (List Nat) :=
    if pyStartsWith image_source "http://" || pyStartsWith image_source "https://" then
      match w.urlFetch with
      | UrlFetchResult.ok b => Except.ok b
      | UrlFetchResult.requestError m => Except.error (EditExc.requestException m)
    else
      match w.fileRead with
      | FileReadResult.ok b => Except.ok b
      | FileReadResult.notFound => Except.error EditExc.fileNotFoundError
      | FileReadResult.otherError m => Except.error (EditExc.other m)
  match fetched with
  | Except.error e => Except.error e
  | Except.ok image_bytes =>
      if image_bytes.isEmpty then
        Except.error (EditExc.other "Could not load image data from source.")
      else
        match w.imageOpen with
        | some m => Except.error (EditExc.other m)
        | none =>
            match w.modelCall with
            | ModelCallResult.raised m => Except.error (EditExc.other m)
            | ModelCallResult.ok resp => Except.ok (responseToResult resp)

/-- Embeds `edit_image_with_gemini(image_source, prompt)`: the unconfigured
guard, then the `try` body with the three `except` handlers mapping
exceptions to `ok:false` results. -/
def edit_image_with_gemini (w : EditWorld) (image_source : String)
    (prompt : String) : EditResult :=
  if !w.visionConfigured then
    { ok := false, edited_image_data := none, error := some "AI model not configured." }
  else
    match editTryBody w image_source with
    | Except.ok r => r
    | Except.error (EditExc.requestException m) =>
        { ok := false, edited_image_data := none,
          error := some ("Failed to download image from URL: " ++ m) }
    | Except.error EditExc.fileNotFoundError =>
        { ok := false, edited_image_data := none,
          error := some ("Image file not found at path: " ++ image_source) }
    | Except.error (EditExc.other m) =>
        { ok := false, edited_image_data := none, error := some m }

/-! ## Theorems about the post source resolver -/

/-- C1: with `preferCache=false`, every live-source error — including the
unconfigured-credentials case, where `get_reddit_instance` returns `None`
and `reddit.subreddit` raises — is caught and degrades to the persisted
cache when it is non-empty and otherwise to the fixed mock dataset; the
cache file is left unchanged. -/
theorem resolver_no_throw_degrades (cfg : RedditConfig) (fetch : FetchOutcome)
    (cb : CacheState) (now : Int) (nowIso : String) (fmt : Int → String)
    (h : credentialsConfigured cfg = false ∨ ∃ m, fetch = FetchOutcome.error m) :
    get_photoshop_request_posts cfg fetch cb now nowIso fmt false =
      { posts := if (load_posts_from_cache cb).isEmpty then get_mock_posts now nowIso
                 else load_posts_from_cache cb,
        cacheAfter := cb } := by
  rcases h with h | ⟨m, rfl⟩
  · simp [get_photoshop_request_posts, get_reddit_instance, fetchFreshPosts,
      cacheOrMock, h]
  · cases hc : credentialsConfigured cfg <;>
      simp [get_photoshop_request_posts, get_reddit_instance, fetchFreshPosts,
        cacheOrMock, hc]

/-- Witness: an invocation with no credentials configured and an erroring
fetch returns the mock dataset and leaves the absent cache absent. -/
theorem resolver_no_throw_degrades_witness :
    get_photoshop_request_posts
        { client_id := none, client_secret := none, user_agent := none,
          username := none, password := none }
        (FetchOutcome.error "connection reset") CacheState.absent 0 "t"
        (fun _ => "d") false =
      { posts := get_mock_posts 0 "t", cacheAfter := CacheState.absent } := by
  have h := resolver_no_throw_degrades
      { client_id := none, client_secret := none, user_agent := none,
        username := none, password := none }
      (FetchOutcome.error "connection reset") CacheState.absent 0 "t" (fun _ => "d")
      (Or.inl rfl)
  simpa [load_posts_from_cache] using h

/-- C2: with `preferCache=false`, configured credentials and a successful
live fetch yielding at least one qualifying post, the resolver overwrites
the cache with exactly the qualifying posts and returns that list, in the
order the live source yielded the submissions (a `filterMap` over the
source sequence, so no re-sorting). -/
theorem resolver_success_overwrites_cache (cfg : RedditConfig) (fetch : FetchOutcome)
    (cb : CacheState) (now : Int) (nowIso : String) (fmt : Int → String)
    (subs : List Submission)
    (hc : credentialsConfigured cfg = true)
    (hf : fetch = FetchOutcome.ok subs)
    (hne : collectImagePosts now fmt subs ≠ []) :
    get_photoshop_request_posts cfg fetch cb now nowIso fmt false =
      { posts := subs.filterMap (qualifyingPost now fmt),
        cacheAfter := CacheState.readable (subs.filterMap (qualifyingPost now fmt)) } := by
  subst hf
  rw [collectImagePosts] at hne
  simp [get_photoshop_request_posts, get_reddit_instance, fetchFreshPosts, hc,
    collectImagePosts, save_posts_to_cache, List.isEmpty_iff, hne]

/-- Witness for the success path: one fresh submission with a direct `.jpg`
URL is persisted and returned. -/
theorem resolver_success_overwrites_cache_witness :
    get_photoshop_request_posts
        { client_id := some "i", client_secret := some "s", user_agent := some "u",
          username := some "n", password := some "p" }
        (FetchOutcome.ok
          [{ id := "abc", title := "fix my photo", selftext := "please",
             created_utc := 100000, url := some "https://i.redd.it/abc.jpg",
             preview := none, permalink := "/r/PhotoshopRequest/abc",
             author := some "alice", score := 3, num_comments := 1,
             subreddit_display_name := "PhotoshopRequest" }])
        CacheState.absent 100000 "t" (fun _ => "d") false =
      { posts :=
          [{ id := "abc", title := "fix my photo", selftext := "please",
             created_utc := 100000, url := some "https://i.redd.it/abc.jpg",
             preview := none, permalink := "/r/PhotoshopRequest/abc",
             author := some "alice", score := 3, num_comments := 1,
             subreddit_display_name := "PhotoshopRequest" }].filterMap
            (qualifyingPost 100000 (fun _ => "d")),
        cacheAfter := CacheState.readable
          ([{ id := "abc", title := "fix my photo", selftext := "please",
              created_utc := 100000, url := some "https://i.redd.it/abc.jpg",
              preview := none, permalink := "/r/PhotoshopRequest/abc",
              author := some "alice", score := 3, num_comments := 1,
              subreddit_display_name := "PhotoshopRequest" }].filterMap
            (qualifyingPost 100000 (fun _ => "d"))) } :=
  resolver_success_overwrites_cache _ _ CacheState.absent 100000 "t" (fun _ => "d") _
    rfl rfl (by decide)

/-- C3: with `preferCache=false`, a failing live fetch and a non-empty
readable cache, the resolver returns the cached entries unchanged and does
not write the cache file. -/
theorem resolver_failure_preserves_cache (cfg : RedditConfig) (m : String)
    (ps : List Post) (now : Int) (nowIso : String) (fmt : Int → String)
    (hne : ps ≠ []) :
    get_photoshop_request_posts cfg (FetchOutcome.error m) (CacheState.readable ps)
        now nowIso fmt false =
      { posts := ps, cacheAfter := CacheState.readable ps } := by
  cases hc : credentialsConfigured cfg <;>
    simp [get_photoshop_request_posts, get_reddit_instance, fetchFreshPosts,
      cacheOrMock, load_posts_from_cache, List.isEmpty_iff, hc, hne]

/-- Witness: a timeout with a one-post cache returns that post and keeps
the cache file as it was. -/
theorem resolver_failure_preserves_cache_witness :
    get_photoshop_request_posts
        { client_id := some "i", client_secret := some "s", user_agent := some "u",
          username := some "n", password := some "p" }
        (FetchOutcome.error "timeout")
        (CacheState.readable
          [{ id := "c1", title := "cached", description := "", imageUrl := "u",
             postUrl := "p", created_utc := 5, created_date := "d", author := "a",
             score := 1, num_comments := 0, subreddit := "PhotoshopRequest" }])
        0 "t" (fun _ => "d") false =
      { posts :=
          [{ id := "c1", title := "cached", description := "", imageUrl := "u",
             postUrl := "p", created_utc := 5, created_date := "d", author := "a",
             score := 1, num_comments := 0, subreddit := "PhotoshopRequest" }],
        cacheAfter := CacheState.readable
          [{ id := "c1", title := "cached", description := "", imageUrl := "u",
             postUrl := "p", created_utc := 5, created_date := "d", author := "a",
             score := 1, num_comments := 0, subreddit := "PhotoshopRequest" }] } :=
  resolver_failure_preserves_cache _ "timeout" _ 0 "t" (fun _ => "d") (by decide)

/-- C4: with `preferCache=true`, the result is the non-empty readable cache
verbatim and otherwise the fixed mock dataset; the live source is never
queried (the result does not depend on the credential configuration or on
the fetch outcome), and the mock dataset has exactly the three ids
`mock_post_1`, `mock_post_2`, `mock_post_3`. -/
theorem resolver_prefer_cache_mode (cfg cfg2 : RedditConfig)
    (fetch fetch2 : FetchOutcome) (cb : CacheState) (now : Int) (nowIso : String)
    (fmt : Int → String) :
    get_photoshop_request_posts cfg fetch cb now nowIso fmt true =
      { posts := if (load_posts_from_cache cb).isEmpty then get_mock_posts now nowIso
                 else load_posts_from_cache cb,
        cacheAfter := cb } ∧
    get_photoshop_request_posts cfg fetch cb now nowIso fmt true =
      get_photoshop_request_posts cfg2 fetch2 cb now nowIso fmt true ∧
    (get_mock_posts now nowIso).map Post.id =
      ["mock_post_1", "mock_post_2", "mock_post_3"] ∧
    (get_mock_posts now nowIso).length = 3 := by
  refine ⟨?_, ?_, ?_, ?_⟩ <;>
    simp [get_photoshop_request_posts, cacheOrMock, get_mock_posts]

/-- C10: every invocation of the resolver returns a non-empty list: the
fallback tiers bottom out at the three mock posts and the success branch is
guarded by `image_posts` being non-empty. -/
theorem resolver_result_nonempty (cfg : RedditConfig) (fetch : FetchOutcome)
    (cb : CacheState) (now : Int) (nowIso : String) (fmt : Int → String)
    (mode : Bool) :
    (get_photoshop_request_posts cfg fetch cb now nowIso fmt mode).posts ≠ [] := by
  have hcm : ∀ cb2 : CacheState, cacheOrMock cb2 now nowIso ≠ [] := by
    intro cb2
    unfold cacheOrMock
    by_cases h : (load_posts_from_cache cb2).isEmpty
    · simp [h, get_mock_posts]
    · simpa [h] using fun hc => h (by simp [hc])
  unfold get_photoshop_request_posts
  cases mode
  · cases hfp : fetchFreshPosts (get_reddit_instance cfg) fetch now fmt with
    | ok ps =>
        by_cases hps : ps.isEmpty
        · simpa [hfp, hps] using hcm cb
        · simpa [hfp, hps] using fun hc => hps (by simp [hc])
    | error m => simpa [hfp] using hcm cb
  · simpa using hcm cb

/-! ## Theorems about the cleanup service -/

/-- Closed form of the reaper loop: the count is the number of entries that
are regular files older than the cutoff whose removal succeeds, and exactly
those entries disappear; failures and other entries are kept and the loop
continues past them. -/
theorem clearLoop_eq (cutoff : Int) (entries : List DirEntry) :
    clearLoop cutoff entries =
      ((entries.filter
          (fun e => e.isFile && decide (e.mtime < cutoff) && !e.removeFails)).length,
       entries.filter
          (fun e => !(e.isFile && decide (e.mtime < cutoff) && !e.removeFails))) := by
  induction entries with
  | nil => rfl
  | cons e es ih =>
      rw [clearLoop, ih]
      cases h1 : (e.isFile && decide (e.mtime < cutoff)) <;>
        cases h2 : e.removeFails <;>
          simp [List.filter, h1, h2]

/-- C5: when every removal succeeds, the reaper deletes exactly the direct
entries that are regular files with modification time strictly before
`now - max_age_hours * 60 * 60`, leaves every other entry in place, and
returns the number of deleted files. -/
theorem clear_old_files_deletes_exactly (now hrs : Int) (entries : List DirEntry)
    (hok : ∀ e ∈ entries, e.removeFails = false) :
    clear_old_files (some entries) now hrs =
      ((entries.filter
          (fun e => e.isFile && decide (e.mtime < now - hrs * 60 * 60))).length,
       some (entries.filter
          (fun e => !(e.isFile && decide (e.mtime < now - hrs * 60 * 60))))) := by
  have hcongr : ∀ p : DirEntry → Bool,
      entries.filter (fun e => p e && !e.removeFails) = entries.filter p := by
    intro p
    apply List.filter_congr
    intro e he
    simp [hok e he]
  have h1 := hcongr (fun e => e.isFile && decide (e.mtime < now - hrs * 60 * 60))
  have h2 : entries.filter
        (fun e => !(e.isFile && decide (e.mtime < now - hrs * 60 * 60) && !e.removeFails))
      = entries.filter
        (fun e => !(e.isFile && decide (e.mtime < now - hrs * 60 * 60))) := by
    apply List.filter_congr
    intro e he
    simp [hok e he]
  simp only [clear_old_files, clearLoop_eq, h1, h2]

/-- Witness: in a directory with one stale file, one fresh file and one
subdirectory, the reaper deletes the stale file only and returns 1. -/
theorem clear_old_files_deletes_exactly_witness :
    clear_old_files
        (some [{ name := "old.png", isFile := true, mtime := 0, size := 10,
                 isLink := false, removeFails := false },
               { name := "new.png", isFile := true, mtime := 999999999, size := 10,
                 isLink := false, removeFails := false },
               { name := "sub", isFile := false, mtime := 0, size := 0,
                 isLink := false, removeFails := false }])
        1000000000 24 =
      (1, some [{ name := "new.png", isFile := true, mtime := 999999999, size := 10,
                  isLink := false, removeFails := false },
                { name := "sub", isFile := false, mtime := 0, size := 0,
                  isLink := false, removeFails := false }]) := by
  have h := clear_old_files_deletes_exactly 1000000000 24
      [{ name := "old.png", isFile := true, mtime := 0, size := 10,
         isLink := false, removeFails := false },
       { name := "new.png", isFile := true, mtime := 999999999, size := 10,
         isLink := false, removeFails := false },
       { name := "sub", isFile := false, mtime := 0, size := 0,
         isLink := false, removeFails := false }] (by decide)
  exact h.trans (by decide)

/-- C6: the reaper is best-effort: a non-existent directory yields 0
without error, the returned count includes exactly the successful
deletions, and a failing removal leaves its file in place while the
remaining entries are still processed. -/
theorem clear_old_files_best_effort (now hrs : Int) (entries : List DirEntry) :
    clear_old_files none now hrs = (0, none) ∧
    clear_old_files (some entries) now hrs =
      ((entries.filter
          (fun e => e.isFile && decide (e.mtime < now - hrs * 60 * 60) && !e.removeFails)).length,
       some (entries.filter
          (fun e => !(e.isFile && decide (e.mtime < now - hrs * 60 * 60) && !e.removeFails)))) :=
  ⟨rfl, by simp [clear_old_files, clearLoop_eq]⟩

/-- C7: the quota policy first materializes both tracked directories, then
compares the combined size in MB against the ceiling (`MAX_STORAGE_MB`,
default 500): at or below the ceiling nothing is deleted, above it the
reaper runs exactly once per directory with the fixed 24-hour threshold. -/
theorem run_cleanup_policy (fs : TrackedDirs) (env : Option Int) (now : Int) :
    ((run_cleanup_if_needed fs env now).dirs.uploads.isSome = true ∧
     (run_cleanup_if_needed fs env now).dirs.edited_images.isSome = true) ∧
    (¬ (get_directory_size (ensureDir fs.uploads) +
          get_directory_size (ensureDir fs.edited_images) >
            ((env.getD 500 : Int) : ℚ)) →
      run_cleanup_if_needed fs env now =
        { dirs := { uploads := some (ensureDir fs.uploads),
                    edited_images := some (ensureDir fs.edited_images) },
          uploads_cleared := none, edited_cleared := none }) ∧
    ((get_directory_size (ensureDir fs.uploads) +
          get_directory_size (ensureDir fs.edited_images) >
            ((env.getD 500 : Int) : ℚ)) →
      run_cleanup_if_needed fs env now =
        { dirs :=
            { uploads := (clear_old_files (some (ensureDir fs.uploads)) now 24).2,
              edited_images :=
                (clear_old_files (some (ensureDir fs.edited_images)) now 24).2 },
          uploads_cleared :=
            some (clear_old_files (some (ensureDir fs.uploads)) now 24).1,
          edited_cleared :=
            some (clear_old_files (some (ensureDir fs.edited_images)) now 24).1 }) := by
  by_cases hgt : (get_directory_size (ensureDir fs.uploads) +
      get_directory_size (ensureDir fs.edited_images) > ((env.getD 500 : Int) : ℚ))
  · refine ⟨⟨?_, ?_⟩, fun hn => absurd hgt hn, fun _ => ?_⟩ <;>
      simp [run_cleanup_if_needed, hgt, clear_old_files]
  · refine ⟨⟨?_, ?_⟩, fun _ => ?_, fun hp => absurd hp hgt⟩ <;>
      simp [run_cleanup_if_needed, hgt]

/-- Witness: with a 0 MB ceiling, an empty pair of directories triggers no
sweep, while a 1 MB stale file in uploads triggers one sweep of each
directory that deletes it. -/
theorem run_cleanup_policy_witness :
    run_cleanup_if_needed { uploads := some [], edited_images := some [] }
        (some 0) 0 =
      { dirs := { uploads := some [], edited_images := some [] },
        uploads_cleared := none, edited_cleared := none } ∧
    run_cleanup_if_needed
        { uploads := some [{ name := "f.png", isFile := true, mtime := 0,
                             size := 1048576, isLink := false, removeFails := false }],
          edited_images := some [] }
        (some 0) 1000000 =
      { dirs := { uploads := some [], edited_images := some [] },
        uploads_cleared := some 1, edited_cleared := some 0 } := by
  constructor
  · have h := (run_cleanup_policy { uploads := some [], edited_images := some [] }
        (some 0) 0).2.1 (by norm_num [get_directory_size, ensureDir])
    exact h.trans (by decide)
  · have h := (run_cleanup_policy
        { uploads := some [{ name := "f.png", isFile := true, mtime := 0,
                             size := 1048576, isLink := false, removeFails := false }],
          edited_images := some [] }
        (some 0) 1000000).2.2 (by norm_num [get_directory_size, ensureDir])
    exact h.trans (by decide)

/-! ## Theorems about the edit orchestrator -/

/-- C8 counterexample: a model response whose second part carries inline
image data while its first part does not makes the orchestrator return
ok:false, so "the response contains inline image data" does not imply
ok:true — the code only inspects the first part. -/
theorem edit_second_part_image_counterexample :
    (GenerationResponse.mk
        [{ inline_data := none },
         { inline_data := some { data := [137, 80], mime_type := "image/png" } }]
        none).parts.any (fun p => p.inline_data.isSome) = true ∧
    (edit_image_with_gemini
        { visionConfigured := true,
          urlFetch := UrlFetchResult.ok [1],
          fileRead := FileReadResult.ok [1],
          imageOpen := none,
          modelCall := ModelCallResult.ok
            (GenerationResponse.mk
              [{ inline_data := none },
               { inline_data := some { data := [137, 80], mime_type := "image/png" } }]
              none) }
        "local.png" "p").ok = false := by
  exact ⟨by decide, by decide⟩

/-- C8 (amended): with resolved, decodable image bytes and a completed
model call returning `resp`, the orchestrator returns ok:true iff the first
part of `resp` carries inline image data, in which case
`edited_image_data` is `data:<model MIME type>;base64,<base64 bytes>`;
otherwise ok:false with the fixed error message, to which the model text is
appended when present. -/
theorem edit_model_response_first_part (w : EditWorld) (src prompt : String)
    (resp : GenerationResponse) (bytes : List Nat)
    (hv : w.visionConfigured = true)
    (hurl : (pyStartsWith src "http://" || pyStartsWith src "https://") = false)
    (hread : w.fileRead = FileReadResult.ok bytes)
    (hbytes : bytes ≠ [])
    (hopen : w.imageOpen = none)
    (hcall : w.modelCall = ModelCallResult.ok resp) :
    ((edit_image_with_gemini w src prompt).ok = true ↔
        (resp.parts.head?.bind ResponsePart.inline_data).isSome = true) ∧
    (∀ d : InlineData, resp.parts.head?.bind ResponsePart.inline_data = some d →
        edit_image_with_gemini w src prompt =
          { ok := true,
            edited_image_data :=
              some ("data:" ++ d.mime_type ++ ";base64," ++ base64Encode d.data),
            error := none }) ∧
    (resp.parts.head?.bind ResponsePart.inline_data = none →
      ∀ reason : String, resp.text = some reason →
        edit_image_with_gemini w src prompt =
          { ok := false, edited_image_data := none,
            error := some
              ("AI did not return an image. It may have refused the request due to safety policies or a vague prompt."
                ++ "\nReason from AI: " ++ reason) }) ∧
    (resp.parts.head?.bind ResponsePart.inline_data = none → resp.text = none →
        edit_image_with_gemini w src prompt =
          { ok := false, edited_image_data := none,
            error := some
              "AI did not return an image. It may have refused the request due to safety policies or a vague prompt." }) := by
  have hrun : edit_image_with_gemini w src prompt = responseToResult resp := by
    simp [edit_image_with_gemini, editTryBody, hv, hurl, hread, hopen, hcall,
      List.isEmpty_iff, hbytes]
  rw [hrun]
  cases hp : resp.parts with
  | nil =>
      cases ht : resp.text <;>
        simp [responseToResult, refusalResult, hp, ht]
  | cons p rest =>
      cases hd : p.inline_data with
      | some d => simp [responseToResult, hp, hd]
      | none =>
          cases ht : resp.text <;>
            simp [responseToResult, refusalResult, hp, hd, ht]

/-- Witness: inline PNG bytes `[137, 80]` come back as
`data:image/png;base64,iVA=`, which starts with `data:image/png;base64,`. -/
theorem edit_model_response_first_part_witness :
    edit_image_with_gemini
        { visionConfigured := true, urlFetch := UrlFetchResult.ok [1],
          fileRead := FileReadResult.ok [137, 80], imageOpen := none,
          modelCall := ModelCallResult.ok
            { parts :=
                [{ inline_data := some { data := [137, 80], mime_type := "image/png" } }],
              text := none } }
        "static/uploads/a.png" "make it blue" =
      { ok := true, edited_image_data := some "data:image/png;base64,iVA=",
        error := none } ∧
    pyStartsWith "data:image/png;base64,iVA=" "data:image/png;base64," = true := by
  constructor
  · have h := (edit_model_response_first_part
        { visionConfigured := true, urlFetch := UrlFetchResult.ok [1],
          fileRead := FileReadResult.ok [137, 80], imageOpen := none,
          modelCall := ModelCallResult.ok
            { parts :=
                [{ inline_data := some { data := [137, 80], mime_type := "image/png" } }],
              text := none } }
        "static/uploads/a.png" "make it blue"
        { parts :=
            [{ inline_data := some { data := [137, 80], mime_type := "image/png" } }],
          text := none }
        [137, 80] rfl (by decide) rfl (by decide) rfl rfl).2.1
        { data := [137, 80], mime_type := "image/png" } rfl
    exact h.trans (by decide)
  · decide

/-- C9: a failure to obtain the image bytes never escapes the orchestrator:
a request exception on a URL source yields ok:false with an error carrying
the `Failed to download` prefix, a missing local file yields ok:false with
an error mentioning `not found`, and any other local read failure still
yields ok:false. -/
theorem edit_fetch_failures_no_throw (w : EditWorld) (src prompt m : String)
    (hv : w.visionConfigured = true) :
    ((pyStartsWith src "http://" || pyStartsWith src "https://") = true →
      w.urlFetch = UrlFetchResult.requestError m →
      edit_image_with_gemini w src prompt =
        { ok := false, edited_image_data := none,
          error := some ("Failed to download" ++ " image from URL: " ++ m) }) ∧
    ((pyStartsWith src "http://" || pyStartsWith src "https://") = false →
      w.fileRead = FileReadResult.notFound →
      edit_image_with_gemini w src prompt =
        { ok := false, edited_image_data := none,
          error := some ("Image file " ++ "not found" ++ " at path: " ++ src) }) ∧
    ((pyStartsWith src "http://" || pyStartsWith src "https://") = false →
      w.fileRead = FileReadResult.otherError m →
      (edit_image_with_gemini w src prompt).ok = false) := by
  have hlit1 : ("Failed to download" ++ " image from URL: " : String)
      = "Failed to download image from URL: " := by decide
  have hlit2 : ("Image file " ++ "not found" ++ " at path: " : String)
      = "Image file not found at path: " := by decide
  refine ⟨fun hu hf => ?_, fun hu hf => ?_, fun hu hf => ?_⟩ <;>
    simp [edit_image_with_gemini, editTryBody, hv, hu, hf, hlit1, hlit2]

/-- Witness: a 404 on a remote URL and a missing local path both produce
the documented ok:false results. -/
theorem edit_fetch_failures_no_throw_witness :
    edit_image_with_gemini
        { visionConfigured := true,
          urlFetch := UrlFetchResult.requestError "404 Client Error",
          fileRead := FileReadResult.ok [1], imageOpen := none,
          modelCall := ModelCallResult.raised "unused" }
        "http://example.com/x.png" "p" =
      { ok := false, edited_image_data := none,
        error := some ("Failed to download" ++ " image from URL: "
          ++ "404 Client Error") } ∧
    edit_image_with_gemini
        { visionConfigured := true, urlFetch := UrlFetchResult.ok [1],
          fileRead := FileReadResult.notFound, imageOpen := none,
          modelCall := ModelCallResult.raised "unused" }
        "static/uploads/missing.png" "p" =
      { ok := false, edited_image_data := none,
        error := some ("Image file " ++ "not found" ++ " at path: "
          ++ "static/uploads/missing.png") } := by
  constructor
  · exact (edit_fetch_failures_no_throw
        { visionConfigured := true,
          urlFetch := UrlFetchResult.requestError "404 Client Error",
          fileRead := FileReadResult.ok [1], imageOpen := none,
          modelCall := ModelCallResult.raised "unused" }
        "http://example.com/x.png" "p" "404 Client Error" rfl).1 (by decide) rfl
  · exact (edit_fetch_failures_no_throw
        { visionConfigured := true, urlFetch := UrlFetchResult.ok [1],
          fileRead := FileReadResult.notFound, imageOpen := none,
          modelCall := ModelCallResult.raised "unused" }
        "static/uploads/missing.png" "p" "unused" rfl).2.1 (by decide) rfl
